import Mathlib

/-!
Shallow embedding of the online_backend library-catalog REST service
(`src/index.js`, with the two further variants in `src/unnamed/part_000`).

The service is an Express app over a SQLite database with three tables
(authors, genres, books).  We model:

* JavaScript request-body values (`JsVal`) with JS truthiness, since the
  handlers validate with `if (!title || !authorid || ...)`;
* SQLite stored values (`SqlVal`): binding a JS value stores NULL for
  null/undefined, an integer for numbers and booleans, text for strings.
  (SQLite column affinity for off-type values — e.g. a numeric string
  stored into an INTEGER column — is not modelled: no claim exercises it,
  and for well-typed payloads the binding below matches SQLite exactly.)
* the database state (`DB`): the three tables plus the AUTOINCREMENT
  counters, persisted across requests;
* each route handler as a pure function from state (and request data) to
  response, or to (new state, response) for the mutating routes;
* the startup `db.serialize` schema-plus-seed block of `src/index.js`
  (`dbSerializeInit`) and the third variant's count-guarded seed block
  (`dbSerializeInitV3`), plus the third variant's unvalidated POST
  handler (`postBooksV3`).

Path `:id` parameters are modelled as integers: SQLite's numeric affinity
on the INTEGER PRIMARY KEY column makes a numeric path string compare
equal to the stored integer id.
-/

namespace OnlineBackend

/-- A JavaScript value as it can appear in a parsed JSON request body.
A field absent from the body destructures to `undefined`. -/
inductive JsVal where
  | undefined : JsVal
  | null : JsVal
  | boolean : Bool → JsVal
  | num : Int → JsVal
  | str : String → JsVal
deriving DecidableEq, Repr

/-- JavaScript truthiness, as used by `if (!title || !authorid || ...)`:
`undefined`, `null`, `false`, `0` and the empty string are falsy. -/
def JsVal.truthy : JsVal → Bool
  | .undefined => false
  | .null => false
  | .boolean b => b
  | .num n => n != 0
  | .str s => s != ""

/-- A SQLite stored value (storage classes NULL, INTEGER, TEXT; REAL and
BLOB never arise in this service). -/
inductive SqlVal where
  | null : SqlVal
  | int : Int → SqlVal
  | text : String → SqlVal
deriving DecidableEq, Repr

/-- Binding a JavaScript value as a SQL statement parameter:
null/undefined bind NULL, numbers bind integers, booleans bind 0/1,
strings bind text (the node sqlite drivers' behaviour). -/
def JsVal.toSql : JsVal → SqlVal
  | .undefined => .null
  | .null => .null
  | .boolean b => .int (if b then 1 else 0)
  | .num n => .int n
  | .str s => .text s

/-- A row of the `authors` table: `authorid INTEGER PRIMARY KEY
AUTOINCREMENT, name TEXT UNIQUE NOT NULL`. -/
structure Author where
  authorid : Nat
  name : String
deriving DecidableEq, Repr

/-- A row of the `genres` table: `genreid INTEGER PRIMARY KEY
AUTOINCREMENT, name TEXT UNIQUE NOT NULL, description TEXT`. -/
structure Genre where
  genreid : Nat
  name : String
  description : String
deriving DecidableEq, Repr

/-- A row of the `books` table.  `bookid` is the INTEGER PRIMARY KEY
AUTOINCREMENT; the remaining columns hold whatever SQL values were bound
(`authorid`/`genreid` are nullable foreign keys). -/
structure Book where
  bookid : Nat
  title : SqlVal
  authorid : SqlVal
  genreid : SqlVal
  pages : SqlVal
  publishedDate : SqlVal
deriving DecidableEq, Repr

/-- The database file state: the three tables (rows in insertion order)
and the AUTOINCREMENT counters for each table's primary key. -/
structure DB where
  authors : List Author
  genres : List Genre
  books : List Book
  nextAuthorid : Nat
  nextGenreid : Nat
  nextBookid : Nat
deriving DecidableEq, Repr

/-- The freshly created database: empty tables, AUTOINCREMENT counters
at 1 (SQLite assigns 1 to the first row). -/
def emptyDB : DB := ⟨[], [], [], 1, 1, 1⟩

/-- Primary-key discipline of the `books` table as maintained by SQLite:
every stored `bookid` is below the AUTOINCREMENT counter (so a fresh
insert never collides), and `bookid`s are pairwise distinct. -/
def DB.wfBooks (db : DB) : Bool :=
  db.books.all (fun b => b.bookid < db.nextBookid) &&
    (db.books.map (fun b => b.bookid)).Nodup

/-- Resolve a stored `authorid` value against the `authors` table, as the
join condition `b.authorid = a.authorid` does: only an INTEGER value can
match (NULL matches nothing in SQL, and a TEXT value never equals the
INTEGER primary key). -/
def findAuthor (authors : List Author) : SqlVal → Option Author
  | .int a => authors.find? (fun x => (x.authorid : Int) == a)
  | _ => none

/-- Resolve a stored `genreid` value against the `genres` table
(join condition `b.genreid = g.genreid`). -/
def findGenre (genres : List Genre) : SqlVal → Option Genre
  | .int g => genres.find? (fun x => (x.genreid : Int) == g)
  | _ => none

/-- One result row of the books read queries: `SELECT b.bookid, b.title,
a.name AS author, g.name AS genre, b.pages, b.publishedDate`. -/
structure BookView where
  bookid : Nat
  title : SqlVal
  author : String
  genre : String
  pages : SqlVal
  publishedDate : SqlVal
deriving DecidableEq, Repr

/-- The inner join of one `books` row against `authors` and `genres`:
produces a result row exactly when both foreign keys resolve. -/
def joinBook (authors : List Author) (genres : List Genre) (b : Book) :
    Option BookView :=
  match findAuthor authors b.authorid, findGenre genres b.genreid with
  | some a, some g =>
      some ⟨b.bookid, b.title, a.name, g.name, b.pages, b.publishedDate⟩
  | _, _ => none

/-- The joined result set `FROM books b JOIN authors a ... JOIN genres g
...`, in `books` row order: rows whose foreign keys do not both resolve
are absent. -/
def listJoin (db : DB) : List BookView :=
  db.books.filterMap (joinBook db.authors db.genres)

/-- An HTTP response of this service: a 200 body (single book, book
array, or `{message}`), a 201 `{bookid}`, or an `{error}` with its
status code. -/
inductive Resp where
  | okBook : BookView → Resp
  | okList : List BookView → Resp
  | okMsg : String → Resp
  | created : Nat → Resp
  | err : Nat → String → Resp
deriving DecidableEq, Repr

/-- The `errorResponse(res, status, message)` utility of the source. -/
def errorResponse (status : Nat) (message : String) : Resp :=
  .err status message

/-- HTTP status code of a response. -/
def Resp.status : Resp → Nat
  | .okBook _ => 200
  | .okList _ => 200
  | .okMsg _ => 200
  | .created _ => 201
  | .err s _ => s

/-- A parsed JSON request body for the book routes, after the handler's
destructuring `const { title, authorid, genreid, pages, publishedDate }
= req.body` (an absent field is `undefined`). -/
structure ReqBody where
  title : JsVal
  authorid : JsVal
  genreid : JsVal
  pages : JsVal
  publishedDate : JsVal
deriving DecidableEq, Repr

/-- The handlers' validation `!title || !authorid || !genreid || !pages
|| !publishedDate` passes iff every field is truthy. -/
def ReqBody.allTruthy (b : ReqBody) : Bool :=
  b.title.truthy && b.authorid.truthy && b.genreid.truthy &&
    b.pages.truthy && b.publishedDate.truthy

/-- Foreign-key enforcement (`PRAGMA foreign_keys = ON` in the first two
variants): a write to `books` is admitted iff each of `authorid`,
`genreid` is NULL or matches an existing parent row. -/
def fkOk (db : DB) (authorid genreid : SqlVal) : Bool :=
  (authorid == .null || (findAuthor db.authors authorid).isSome) &&
    (genreid == .null || (findGenre db.genres genreid).isSome)

/-- `GET /books/:id` (src/index.js lines 123–138): run the join query
with `WHERE b.bookid = ?`; `db.get` takes the first row; no row is a
404 `Book not found`. -/
def getBookHandler (db : DB) (id : Int) : Resp :=
  match (listJoin db).find? (fun v => (v.bookid : Int) == id) with
  | some row => .okBook row
  | none => errorResponse 404 "Book not found"

/-- The pagination of `GET /books`: `const { page = 1, limit = 10 } =
req.query; const offset = (page - 1) * limit;` — parameters are used as
numbers, defaulted when absent, and not otherwise bounded or
validated. -/
def pageOffset (page limit : Option Int) : Int :=
  (page.getD 1 - 1) * limit.getD 10

/-- The LIMIT value passed to the list query (`parseInt(limit)`). -/
def pageLimit (limit : Option Int) : Int :=
  limit.getD 10

/-- SQLite `LIMIT l OFFSET o` on a result set: a negative offset acts
as 0 (`Int.toNat` clamps), a negative limit means no limit. -/
def sqlLimitOffset (rows : List BookView) (limit offset : Int) :
    List BookView :=
  let dropped := rows.drop offset.toNat
  if limit < 0 then dropped else dropped.take limit.toNat

/-- `GET /books` (src/index.js lines 104–120): the join query with
`LIMIT ? OFFSET ?` bound to `parseInt(limit)`, `parseInt(offset)`. -/
def listBooksHandler (db : DB) (page limit : Option Int) : Resp :=
  .okList (sqlLimitOffset (listJoin db) (pageLimit limit)
    (pageOffset page limit))

/-- The `books` row inserted or written by POST/PUT: each bound request
value stored as its SQL value. -/
def Book.ofBody (bookid : Nat) (body : ReqBody) : Book :=
  ⟨bookid, body.title.toSql, body.authorid.toSql, body.genreid.toSql,
    body.pages.toSql, body.publishedDate.toSql⟩

/-- `POST /books` (src/index.js lines 141–157): 400 if any field is
falsy; otherwise INSERT — a foreign-key violation is a 500 with the
driver's message, success is 201 with `{bookid: this.lastID}`. -/
def postBooksHandler (db : DB) (body : ReqBody) : DB × Resp :=
  if !body.allTruthy then
    (db, errorResponse 400 "All fields are required")
  else if fkOk db body.authorid.toSql body.genreid.toSql then
    ({ db with
        books := db.books ++ [Book.ofBody db.nextBookid body],
        nextBookid := db.nextBookid + 1 },
      .created db.nextBookid)
  else
    (db, errorResponse 500 "SQLITE_CONSTRAINT: FOREIGN KEY constraint failed")

/-- The effect of `UPDATE books SET title = ?, authorid = ?, genreid =
?, pages = ?, publishedDate = ? WHERE bookid = ?` on one row. -/
def Book.updateWith (body : ReqBody) (b : Book) : Book :=
  { b with
      title := body.title.toSql,
      authorid := body.authorid.toSql,
      genreid := body.genreid.toSql,
      pages := body.pages.toSql,
      publishedDate := body.publishedDate.toSql }

/-- `PUT /books/:id` (src/index.js lines 160–178): 400 if any field is
falsy; otherwise UPDATE — `this.changes === 0` (no row with that id) is
a 404, a foreign-key violation on the touched row aborts the statement
with a 500, success is a 200 message. -/
def putBooksHandler (db : DB) (id : Int) (body : ReqBody) : DB × Resp :=
  if !body.allTruthy then
    (db, errorResponse 400 "All fields are required")
  else if db.books.any (fun b => (b.bookid : Int) == id) then
    if fkOk db body.authorid.toSql body.genreid.toSql then
      ({ db with
          books := db.books.map (fun b =>
            if (b.bookid : Int) == id then Book.updateWith body b else b) },
        .okMsg "Book updated successfully")
    else
      (db, errorResponse 500 "SQLITE_CONSTRAINT: FOREIGN KEY constraint failed")
  else
    (db, errorResponse 404 "Book not found")

/-- `DELETE /books/:id` (src/index.js lines 181–191): `DELETE FROM books
WHERE bookid = ?`; `this.changes === 0` is a 404, otherwise a 200
message. -/
def deleteBooksHandler (db : DB) (id : Int) : DB × Resp :=
  if db.books.any (fun b => (b.bookid : Int) == id) then
    ({ db with books := db.books.filter (fun b => !((b.bookid : Int) == id)) },
      .okMsg "Book deleted successfully")
  else
    (db, errorResponse 404 "Book not found")

/-- The author names seeded at startup (src/index.js lines 60–63). -/
def seedAuthorNames : List String :=
  ["J.K. Rowling", "George Orwell", "J.R.R. Tolkien", "Harper Lee"]

/-- The genres seeded at startup (src/index.js lines 66–73). -/
def seedGenreRows : List (String × String) :=
  [("Fantasy",
    "A genre of speculative fiction involving magic and mythical creatures"),
   ("Dystopian",
    "A genre of speculative fiction set in a futuristic society with oppression and control"),
   ("Fiction",
    "A genre of narrative fiction based on real-life experiences")]

/-- One entry of the books seed array (src/index.js lines 76–81). -/
structure SeedBook where
  title : String
  author : String
  genre : String
  pages : Int
  publishedDate : String
deriving DecidableEq, Repr

/-- The books seeded at startup, in source order: Harry Potter first. -/
def seedBookRows : List SeedBook :=
  [⟨"Harry Potter and the Sorcerer\x27s Stone", "J.K. Rowling", "Fantasy",
      309, "1997-06-26"⟩,
   ⟨"1984", "George Orwell", "Dystopian", 328, "1949-06-08"⟩,
   ⟨"The Hobbit", "J.R.R. Tolkien", "Fantasy", 310, "1937-09-21"⟩,
   ⟨"To Kill a Mockingbird", "Harper Lee", "Fiction", 324, "1960-07-11"⟩]

/-- `INSERT OR IGNORE INTO authors (name) VALUES (?)`: the UNIQUE
constraint on `name` turns a duplicate into a no-op; otherwise a row is
inserted with the next AUTOINCREMENT id. -/
def insertOrIgnoreAuthor (db : DB) (name : String) : DB :=
  if db.authors.any (fun a => a.name == name) then db
  else { db with
          authors := db.authors ++ [⟨db.nextAuthorid, name⟩],
          nextAuthorid := db.nextAuthorid + 1 }

/-- `INSERT OR IGNORE INTO genres (name, description) VALUES (?, ?)`:
duplicate `name` is a no-op (UNIQUE constraint). -/
def insertOrIgnoreGenre (db : DB) (name description : String) : DB :=
  if db.genres.any (fun g => g.name == name) then db
  else { db with
          genres := db.genres ++ [⟨db.nextGenreid, name, description⟩],
          nextGenreid := db.nextGenreid + 1 }

/-- One iteration of the books seed loop (src/index.js lines 82–95):
look up the author and genre ids by name; if the lookup yields a row,
`INSERT OR IGNORE INTO books ...`.  The `books` table has no uniqueness
constraint on any of the inserted columns (its only key is the
AUTOINCREMENT primary key), so the OR IGNORE clause never fires and the
insert always adds a row. -/
def seedBookRow (db : DB) (sb : SeedBook) : DB :=
  match db.authors.find? (fun a => a.name == sb.author),
        db.genres.find? (fun g => g.name == sb.genre) with
  | some a, some g =>
      { db with
          books := db.books ++
            [⟨db.nextBookid, .text sb.title, .int a.authorid,
              .int g.genreid, .int sb.pages, .text sb.publishedDate⟩],
          nextBookid := db.nextBookid + 1 }
  | _, _ => db

/-- The whole `db.serialize` startup block of src/index.js (lines
30–96): `CREATE TABLE IF NOT EXISTS` (a no-op on the state model), then
the three seed loops in order. -/
def dbSerializeInit (db : DB) : DB :=
  let db1 := seedAuthorNames.foldl insertOrIgnoreAuthor db
  let db2 := seedGenreRows.foldl
    (fun d p => insertOrIgnoreGenre d p.1 p.2) db1
  seedBookRows.foldl seedBookRow db2

/-- The database produced by starting the service on an empty file. -/
def seededDB : DB := dbSerializeInit emptyDB

/-- The third variant's startup block (src/unnamed/part_000 lines
211–245): plain INSERTs of four authors, three genres and four books
(with literal author/genre ids), guarded by `SELECT COUNT(*) FROM
authors` being zero. -/
def dbSerializeInitV3 (db : DB) : DB :=
  if db.authors.length == 0 then
    { db with
        authors := db.authors ++
          [⟨db.nextAuthorid, "J.K. Rowling"⟩,
           ⟨db.nextAuthorid + 1, "George Orwell"⟩,
           ⟨db.nextAuthorid + 2, "J.R.R. Tolkien"⟩,
           ⟨db.nextAuthorid + 3, "Harper Lee"⟩],
        genres := db.genres ++
          [⟨db.nextGenreid, "Fantasy",
            "A genre of speculative fiction involving magic and mythical creatures"⟩,
           ⟨db.nextGenreid + 1, "Dystopian",
            "A genre of speculative fiction set in a futuristic society with oppression and control"⟩,
           ⟨db.nextGenreid + 2, "Fiction",
            "A genre of narrative fiction based on real-life experiences"⟩],
        books := db.books ++
          [⟨db.nextBookid, .text "Harry Potter and the Sorcerer\x27s Stone",
            .int 1, .int 1, .int 309, .text "1997-06-26"⟩,
           ⟨db.nextBookid + 1, .text "1984", .int 2, .int 2, .int 328,
            .text "1949-06-08"⟩,
           ⟨db.nextBookid + 2, .text "The Hobbit", .int 3, .int 1,
            .int 310, .text "1937-09-21"⟩,
           ⟨db.nextBookid + 3, .text "To Kill a Mockingbird", .int 4,
            .int 3, .int 324, .text "1960-07-11"⟩],
        nextAuthorid := db.nextAuthorid + 4,
        nextGenreid := db.nextGenreid + 3,
        nextBookid := db.nextBookid + 4 }
  else db

/-- The third variant's `POST /books` (src/unnamed/part_000 lines
278–288): no validation of the body, a plain INSERT.  That variant
neither enables `PRAGMA foreign_keys` nor declares NOT NULL columns on
`books`, so the insert succeeds on any body and responds 201. -/
def postBooksV3 (db : DB) (body : ReqBody) : DB × Resp :=
  ({ db with
      books := db.books ++ [Book.ofBody db.nextBookid body],
      nextBookid := db.nextBookid + 1 },
    .created db.nextBookid)

/-- A request body with every field absent (`req.body` of `{}`). -/
def blankBody : ReqBody :=
  ⟨.undefined, .undefined, .undefined, .undefined, .undefined⟩

/-! ## Shared lemmas about the embedding -/

/-- A joined result row carries the `bookid` of the underlying `books`
row. -/
theorem joinBook_bookid {authors : List Author} {genres : List Genre}
    {b : Book} {v : BookView}
    (h : joinBook authors genres b = some v) : v.bookid = b.bookid := by
  unfold joinBook at h
  cases ha : findAuthor authors b.authorid with
  | none => rw [ha] at h; exact absurd h (by simp)
  | some a =>
    cases hg : findGenre genres b.genreid with
    | none => rw [ha, hg] at h; exact absurd h (by simp)
    | some g =>
      rw [ha, hg] at h
      cases h
      rfl

/-- Every member of the joined result set comes from a `books` row. -/
theorem mem_listJoin {db : DB} {v : BookView} (h : v ∈ listJoin db) :
    ∃ b ∈ db.books, joinBook db.authors db.genres b = some v :=
  List.mem_filterMap.mp h

/-- `LIMIT`/`OFFSET` only selects rows of the underlying result set. -/
theorem mem_sqlLimitOffset {rows : List BookView} {l o : Int}
    {v : BookView} (h : v ∈ sqlLimitOffset rows l o) : v ∈ rows := by
  simp only [sqlLimitOffset] at h
  split at h
  · exact List.mem_of_mem_drop h
  · exact List.mem_of_mem_drop (List.mem_of_mem_take h)

/-- In a well-formed database every stored `bookid` is below the
AUTOINCREMENT counter. -/
theorem wfBooks_lt {db : DB} (hwf : db.wfBooks = true) {b : Book}
    (hb : b ∈ db.books) : b.bookid < db.nextBookid := by
  unfold DB.wfBooks at hwf
  rw [Bool.and_eq_true] at hwf
  exact of_decide_eq_true (List.all_eq_true.mp hwf.1 b hb)

/-- `find?` skips a prefix on which the predicate is everywhere
false. -/
theorem find?_append_of_forall_false {α : Type} {p : α → Bool}
    {l₁ : List α} (l₂ : List α) (h : ∀ v ∈ l₁, p v = false) :
    List.find? p (l₁ ++ l₂) = List.find? p l₂ := by
  rw [List.find?_append]
  have : List.find? p l₁ = none :=
    List.find?_eq_none.mpr (fun x hx => by simp [h x hx])
  rw [this, Option.none_or]

/-- `INSERT OR IGNORE INTO authors` never removes rows. -/
theorem authors_sublist_insertAuthor (db : DB) (name : String) :
    List.Sublist db.authors (insertOrIgnoreAuthor db name).authors := by
  unfold insertOrIgnoreAuthor
  split
  · exact List.Sublist.refl _
  · exact List.sublist_append_left _ _

/-- The author seed loop never removes authors. -/
theorem authors_sublist_foldl_insertAuthor (names : List String)
    (db : DB) :
    List.Sublist db.authors
      ((names.foldl insertOrIgnoreAuthor db).authors) := by
  induction names generalizing db with
  | nil => exact List.Sublist.refl _
  | cons n ns ih =>
    exact (authors_sublist_insertAuthor db n).trans (ih _)

/-- `INSERT OR IGNORE INTO genres` does not touch the authors table. -/
theorem authors_insertGenre (db : DB) (n d : String) :
    (insertOrIgnoreGenre db n d).authors = db.authors := by
  unfold insertOrIgnoreGenre
  split <;> rfl

/-- The genre seed loop does not touch the authors table. -/
theorem authors_foldl_insertGenre (gs : List (String × String))
    (db : DB) :
    ((gs.foldl (fun d p => insertOrIgnoreGenre d p.1 p.2) db).authors)
      = db.authors := by
  induction gs generalizing db with
  | nil => rfl
  | cons g gs ih => rw [List.foldl_cons, ih, authors_insertGenre]

/-- One book seed step does not touch the authors table. -/
theorem authors_seedBookRow (db : DB) (sb : SeedBook) :
    (seedBookRow db sb).authors = db.authors := by
  unfold seedBookRow
  split <;> rfl

/-- The book seed loop does not touch the authors table. -/
theorem authors_foldl_seedBook (sbs : List SeedBook) (db : DB) :
    ((sbs.foldl seedBookRow db).authors) = db.authors := by
  induction sbs generalizing db with
  | nil => rfl
  | cons sb sbs ih => rw [List.foldl_cons, ih, authors_seedBookRow]

/-- `INSERT OR IGNORE INTO authors` does not touch the genres table. -/
theorem genres_insertAuthor (db : DB) (name : String) :
    (insertOrIgnoreAuthor db name).genres = db.genres := by
  unfold insertOrIgnoreAuthor
  split <;> rfl

/-- The author seed loop does not touch the genres table. -/
theorem genres_foldl_insertAuthor (names : List String) (db : DB) :
    ((names.foldl insertOrIgnoreAuthor db).genres) = db.genres := by
  induction names generalizing db with
  | nil => rfl
  | cons n ns ih => rw [List.foldl_cons, ih, genres_insertAuthor]

/-- `INSERT OR IGNORE INTO genres` never removes rows. -/
theorem genres_sublist_insertGenre (db : DB) (n d : String) :
    List.Sublist db.genres (insertOrIgnoreGenre db n d).genres := by
  unfold insertOrIgnoreGenre
  split
  · exact List.Sublist.refl _
  · exact List.sublist_append_left _ _

/-- The genre seed loop never removes genres. -/
theorem genres_sublist_foldl_insertGenre (gs : List (String × String))
    (db : DB) :
    List.Sublist db.genres
      ((gs.foldl (fun d p => insertOrIgnoreGenre d p.1 p.2) db).genres) := by
  induction gs generalizing db with
  | nil => exact List.Sublist.refl _
  | cons g gs ih =>
    exact (genres_sublist_insertGenre db g.1 g.2).trans (ih _)

/-- One book seed step does not touch the genres table. -/
theorem genres_seedBookRow (db : DB) (sb : SeedBook) :
    (seedBookRow db sb).genres = db.genres := by
  unfold seedBookRow
  split <;> rfl

/-- The book seed loop does not touch the genres table. -/
theorem genres_foldl_seedBook (sbs : List SeedBook) (db : DB) :
    ((sbs.foldl seedBookRow db).genres) = db.genres := by
  induction sbs generalizing db with
  | nil => rfl
  | cons sb sbs ih => rw [List.foldl_cons, ih, genres_seedBookRow]

/-! ## Concrete request bodies used as witnesses -/

/-- A well-typed, fully truthy book payload referencing seeded author 2
(George Orwell) and genre 3 (Fiction). -/
def newBookBody : ReqBody :=
  ⟨.str "New Book", .num 2, .num 3, .num 100, .str "2021-05-05"⟩

/-- A payload with all five fields present but `pages` equal to `0`
(falsy in JavaScript). -/
def zeroPagesBody : ReqBody :=
  ⟨.str "The Pamphlet", .num 1, .num 1, .num 0, .str "2020-01-01"⟩

/-! ## Claim theorems -/

/-- C2 (counterexample): the third variant's `POST /books` performs no
field validation: on the empty body it does not respond 400, it inserts
a row of NULLs into `books`, and it responds 201 — refuting the claim
that every variant's POST rejects a missing-field body without a
storage mutation. -/
theorem postV3_no_validation_cex :
    (postBooksV3 emptyDB blankBody).2 ≠
      errorResponse 400 "All fields are required" ∧
    (postBooksV3 emptyDB blankBody).1.books ≠ emptyDB.books ∧
    (postBooksV3 emptyDB blankBody).2 = .created 1 := by
  decide

/-- C2 (amended): in the two validated variants (`src/index.js` and the
first handler set of `src/unnamed/part_000`), a POST or PUT body in
which any of the five fields is missing or falsy yields the static 400
`All fields are required` and leaves the database — in particular the
books table — unchanged. -/
theorem missing_field_400 (db : DB) (id : Int) (body : ReqBody)
    (h : body.allTruthy = false) :
    postBooksHandler db body =
      (db, errorResponse 400 "All fields are required") ∧
    putBooksHandler db id body =
      (db, errorResponse 400 "All fields are required") := by
  unfold postBooksHandler putBooksHandler
  rw [h]
  simp

/-- C2 (witness): the empty body is rejected by the validated POST
against the seeded database, with no state change. -/
theorem missing_field_400_w :
    blankBody.allTruthy = false ∧
    postBooksHandler seededDB blankBody =
      (seededDB, errorResponse 400 "All fields are required") :=
  ⟨by decide, (missing_field_400 seededDB 1 blankBody (by decide)).1⟩

/-- C4 (counterexample): running the `src/index.js` seed block twice
from an empty database does not reproduce the once-seeded state: the
books table ends with eight rows, because `INSERT OR IGNORE INTO books`
has no uniqueness constraint to fire on (the only key of `books` is its
AUTOINCREMENT primary key). -/
theorem seed_twice_duplicates_cex :
    (dbSerializeInit emptyDB).authors.length = 4 ∧
    (dbSerializeInit emptyDB).genres.length = 3 ∧
    (dbSerializeInit emptyDB).books.length = 4 ∧
    (dbSerializeInit (dbSerializeInit emptyDB)).books.length = 8 ∧
    dbSerializeInit (dbSerializeInit emptyDB) ≠ dbSerializeInit emptyDB := by
  decide

/-- C4 (amended): re-running the `src/index.js` seed block duplicates
no author or genre (UNIQUE name constraints make the OR IGNORE a no-op)
but appends four duplicate book rows, leaving eight books whose first
four are the original seed; only the third variant's count-guarded
seeding is idempotent, keeping exactly four authors, three genres and
four books. -/
theorem seed_twice_behavior :
    (dbSerializeInit (dbSerializeInit emptyDB)).authors =
      (dbSerializeInit emptyDB).authors ∧
    (dbSerializeInit (dbSerializeInit emptyDB)).genres =
      (dbSerializeInit emptyDB).genres ∧
    (dbSerializeInit (dbSerializeInit emptyDB)).books.length = 8 ∧
    (dbSerializeInit (dbSerializeInit emptyDB)).books.take 4 =
      (dbSerializeInit emptyDB).books ∧
    dbSerializeInitV3 (dbSerializeInitV3 emptyDB) =
      dbSerializeInitV3 emptyDB ∧
    (dbSerializeInitV3 emptyDB).authors.length = 4 ∧
    (dbSerializeInitV3 emptyDB).genres.length = 3 ∧
    (dbSerializeInitV3 emptyDB).books.length = 4 := by
  decide

/-- C5 (counterexample): after seeding an empty database, `GET /books/1`
does not return the 1984 object: the seed array lists Harry Potter
first, so bookid 1 is Harry Potter. -/
theorem get_book1_not_1984_cex :
    getBookHandler seededDB 1 ≠
      Resp.okBook ⟨1, .text "1984", "George Orwell", "Dystopian",
        .int 328, .text "1949-06-08"⟩ := by
  decide

/-- C5 (amended): after seeding an empty database, `GET /books/1`
returns 200 with the Harry Potter object (id 1, title "Harry Potter and
the Sorcerer's Stone", author "J.K. Rowling", genre "Fantasy", pages
309, publishedDate "1997-06-26"); the 1984 object is returned by
`GET /books/2`.  The third variant's seeding likewise puts Harry Potter
at id 1. -/
theorem get_book1_harry_potter :
    getBookHandler seededDB 1 =
      Resp.okBook ⟨1, .text "Harry Potter and the Sorcerer\x27s Stone",
        "J.K. Rowling", "Fantasy", .int 309, .text "1997-06-26"⟩ ∧
    getBookHandler seededDB 2 =
      Resp.okBook ⟨2, .text "1984", "George Orwell", "Dystopian",
        .int 328, .text "1949-06-08"⟩ ∧
    getBookHandler (dbSerializeInitV3 emptyDB) 1 =
      Resp.okBook ⟨1, .text "Harry Potter and the Sorcerer\x27s Stone",
        "J.K. Rowling", "Fantasy", .int 309, .text "1997-06-26"⟩ := by
  decide

/-- C6: the offset bound into the `GET /books` list query is exactly
`(page − 1) × limit`, with `page` defaulting to 1 and `limit` to 10
when absent; no bounding or validation is applied (the formula holds
for every integer value, including zero and negatives), and the handler
passes the computed limit and offset straight to the query. -/
theorem pagination_offset_formula (db : DB) (p l : Int) :
    pageOffset (some p) (some l) = (p - 1) * l ∧
    pageOffset none (some l) = 0 ∧
    pageOffset (some p) none = (p - 1) * 10 ∧
    pageOffset none none = 0 ∧
    pageLimit none = 10 ∧
    pageLimit (some l) = l ∧
    listBooksHandler db (some p) (some l) =
      .okList (sqlLimitOffset (listJoin db) l ((p - 1) * l)) := by
  refine ⟨rfl, ?_, rfl, rfl, rfl, rfl, rfl⟩
  simp [pageOffset]

/-- C10: a POST or PUT body in which all five fields are present but at
least one is falsy (e.g. `pages: 0` or an empty title) is rejected with
the static 400 `All fields are required` and causes no storage
mutation, exactly as if the field were absent. -/
theorem present_falsy_400 (db : DB) (id : Int) (body : ReqBody)
    (hpres : body.title ≠ .undefined ∧ body.authorid ≠ .undefined ∧
      body.genreid ≠ .undefined ∧ body.pages ≠ .undefined ∧
      body.publishedDate ≠ .undefined)
    (hfalsy : body.allTruthy = false) :
    postBooksHandler db body =
      (db, errorResponse 400 "All fields are required") ∧
    putBooksHandler db id body =
      (db, errorResponse 400 "All fields are required") := by
  unfold postBooksHandler putBooksHandler
  rw [hfalsy]
  simp

/-- C10 (witness): the payload with `pages: 0` — every field present,
one falsy — is rejected by POST against the seeded database with no
state change. -/
theorem present_falsy_400_w :
    zeroPagesBody.pages = JsVal.num 0 ∧
    zeroPagesBody.allTruthy = false ∧
    postBooksHandler seededDB zeroPagesBody =
      (seededDB, errorResponse 400 "All fields are required") :=
  ⟨rfl, by decide,
    (present_falsy_400 seededDB 1 zeroPagesBody
      ⟨by decide, by decide, by decide, by decide, by decide⟩
      (by decide)).1⟩

/-- C1: for every valid book payload — nonempty title and date strings,
nonzero page count, author and genre ids of existing rows — POST /books
responds 201 with the fresh bookid and appends exactly that row, and a
subsequent GET /books/:id on that bookid returns 200 with the posted
title, pages and publishedDate and the names of the referenced author
and genre rows. -/
theorem post_then_get_roundtrip (db : DB) (t d : String) (a g p : Int)
    (au : Author) (ge : Genre)
    (hwf : db.wfBooks = true)
    (ht : t ≠ "") (hd : d ≠ "") (hp : p ≠ 0) (ha0 : a ≠ 0) (hg0 : g ≠ 0)
    (ha : findAuthor db.authors (.int a) = some au)
    (hg : findGenre db.genres (.int g) = some ge) :
    postBooksHandler db ⟨.str t, .num a, .num g, .num p, .str d⟩ =
      ({ db with
          books := db.books ++
            [⟨db.nextBookid, .text t, .int a, .int g, .int p, .text d⟩],
          nextBookid := db.nextBookid + 1 },
        .created db.nextBookid) ∧
    getBookHandler
      (postBooksHandler db ⟨.str t, .num a, .num g, .num p, .str d⟩).1
      (db.nextBookid : Int) =
      .okBook ⟨db.nextBookid, .text t, au.name, ge.name, .int p,
        .text d⟩ := by
  have htr : ReqBody.allTruthy ⟨.str t, .num a, .num g, .num p, .str d⟩
      = true := by
    simp only [ReqBody.allTruthy, JsVal.truthy, Bool.and_eq_true,
      bne_iff_ne, ne_eq]
    exact ⟨⟨⟨⟨ht, ha0⟩, hg0⟩, hp⟩, hd⟩
  have hfk : fkOk db (SqlVal.int a) (SqlVal.int g) = true := by
    simp [fkOk, ha, hg]
  have hpost : postBooksHandler db ⟨.str t, .num a, .num g, .num p, .str d⟩ =
      ({ db with
          books := db.books ++
            [⟨db.nextBookid, .text t, .int a, .int g, .int p, .text d⟩],
          nextBookid := db.nextBookid + 1 },
        .created db.nextBookid) := by
    simp [postBooksHandler, htr, JsVal.toSql, hfk, Book.ofBody]
  have hjoin : joinBook db.authors db.genres
      ⟨db.nextBookid, .text t, .int a, .int g, .int p, .text d⟩ =
      some ⟨db.nextBookid, .text t, au.name, ge.name, .int p, .text d⟩ := by
    simp [joinBook, ha, hg]
  have hnone : (listJoin db).find?
      (fun v => (v.bookid : Int) == (db.nextBookid : Int)) = none := by
    rw [List.find?_eq_none]
    intro v hv
    obtain ⟨b, hb, hjb⟩ := mem_listJoin hv
    have hlt := wfBooks_lt hwf hb
    simp only [joinBook_bookid hjb, beq_iff_eq, Int.natCast_inj]
    omega
  refine ⟨hpost, ?_⟩
  rw [hpost]
  unfold getBookHandler
  have hlist : listJoin { db with
      books := db.books ++
        [⟨db.nextBookid, .text t, .int a, .int g, .int p, .text d⟩],
      nextBookid := db.nextBookid + 1 } =
      listJoin db ++
        [⟨db.nextBookid, .text t, au.name, ge.name, .int p, .text d⟩] := by
    unfold listJoin
    rw [List.filterMap_append]
    simp [hjoin]
  rw [hlist, List.find?_append, hnone, Option.none_or]
  simp [List.find?]

/-- C1 (witness): posting a concrete valid payload to the seeded
database and reading the fresh id back yields the posted fields with
the referenced author and genre names. -/
theorem post_then_get_roundtrip_w :
    seededDB.wfBooks = true ∧
    getBookHandler (postBooksHandler seededDB newBookBody).1
      (seededDB.nextBookid : Int) =
      .okBook ⟨seededDB.nextBookid, .text "New Book", "George Orwell",
        "Fiction", .int 100, .text "2021-05-05"⟩ :=
  ⟨by decide,
    (post_then_get_roundtrip seededDB "New Book" "2021-05-05" 2 3 100
      ⟨2, "George Orwell"⟩
      ⟨3, "Fiction",
        "A genre of narrative fiction based on real-life experiences"⟩
      (by decide) (by decide) (by decide) (by decide) (by decide)
      (by decide) (by decide) (by decide)).2⟩

/-- C3: for an id matching no `books` row, `GET /books/:id` responds
404 `Book not found`, and `PUT /books/:id` (with a complete truthy
body) and `DELETE /books/:id` respond 404 while returning the database
unchanged. -/
theorem nonexistent_id_404 (db : DB) (id : Int) (body : ReqBody)
    (hnone : db.books.all (fun b => !((b.bookid : Int) == id)) = true)
    (hbody : body.allTruthy = true) :
    getBookHandler db id = errorResponse 404 "Book not found" ∧
    putBooksHandler db id body = (db, errorResponse 404 "Book not found") ∧
    deleteBooksHandler db id = (db, errorResponse 404 "Book not found") := by
  have hall : ∀ b ∈ db.books, ((b.bookid : Int) == id) = false := by
    intro b hb
    have := List.all_eq_true.mp hnone b hb
    simpa using this
  have hany : db.books.any (fun b => (b.bookid : Int) == id) = false :=
    List.any_eq_false.mpr (fun b hb => by simp [hall b hb])
  refine ⟨?_, ?_, ?_⟩
  · unfold getBookHandler
    have hfind : (listJoin db).find?
        (fun v => (v.bookid : Int) == id) = none := by
      rw [List.find?_eq_none]
      intro v hv
      obtain ⟨b, hb, hjb⟩ := mem_listJoin hv
      simp [joinBook_bookid hjb, hall b hb]
    rw [hfind]
  · unfold putBooksHandler
    rw [hbody, hany]
    simp
  · unfold deleteBooksHandler
    rw [hany]
    simp

/-- C3 (witness): id 99 is absent from the seeded database; GET and
DELETE on it respond 404 (DELETE without touching the state). -/
theorem nonexistent_id_404_w :
    seededDB.books.all (fun b => !((b.bookid : Int) == (99 : Int))) = true ∧
    getBookHandler seededDB 99 = errorResponse 404 "Book not found" ∧
    deleteBooksHandler seededDB 99 =
      (seededDB, errorResponse 404 "Book not found") := by
  have h := nonexistent_id_404 seededDB 99 newBookBody (by decide) (by decide)
  exact ⟨by decide, h.1, h.2.2⟩

/-- A stored book whose `authorid` is NULL: inserted next to the seed
rows to witness the dangling-foreign-key claim. -/
def danglingBook : Book :=
  ⟨5, .text "Orphan", .null, .int 1, .int 12, .text "2000-01-01"⟩

/-- The seeded database plus the NULL-authored book. -/
def dbWithDangling : DB :=
  { seededDB with
      books := seededDB.books ++ [danglingBook],
      nextBookid := 6 }

/-- C7: a stored book whose `authorid` or `genreid` fails to resolve
(NULL, non-integer, or no matching parent row) is invisible to the read
routes: it appears in no `GET /books` result under any pagination,
`GET /books/:id` on its id responds 404 — yet the row remains in the
books table. -/
theorem dangling_fk_invisible (db : DB) (b : Book)
    (hb : b ∈ db.books)
    (hnodup : (db.books.map (fun x => x.bookid)).Nodup)
    (hdang : findAuthor db.authors b.authorid = none ∨
      findGenre db.genres b.genreid = none) :
    getBookHandler db (b.bookid : Int) =
      errorResponse 404 "Book not found" ∧
    (∀ v ∈ listJoin db, v.bookid ≠ b.bookid) ∧
    (∀ (page limit : Option Int) (v : BookView),
      v ∈ sqlLimitOffset (listJoin db) (pageLimit limit)
        (pageOffset page limit) → v.bookid ≠ b.bookid) ∧
    b ∈ db.books := by
  have hjb : joinBook db.authors db.genres b = none := by
    unfold joinBook
    cases hfa : findAuthor db.authors b.authorid with
    | none =>
      cases hfg : findGenre db.genres b.genreid with
      | none => rfl
      | some g => rfl
    | some a =>
      cases hfg : findGenre db.genres b.genreid with
      | none => rfl
      | some g =>
        rcases hdang with h | h
        · rw [hfa] at h
          exact absurd h (by simp)
        · rw [hfg] at h
          exact absurd h (by simp)
  have key : ∀ v ∈ listJoin db, v.bookid ≠ b.bookid := by
    intro v hv heq
    obtain ⟨b', hb', hjb'⟩ := mem_listJoin hv
    have hbb : b' = b :=
      List.inj_on_of_nodup_map hnodup hb' hb
        (by rw [← joinBook_bookid hjb', heq])
    rw [hbb, hjb] at hjb'
    exact Option.noConfusion hjb'
  refine ⟨?_, key, ?_, hb⟩
  · unfold getBookHandler
    have hfind : (listJoin db).find?
        (fun v => (v.bookid : Int) == (b.bookid : Int)) = none := by
      rw [List.find?_eq_none]
      intro v hv
      simp only [beq_iff_eq, Int.natCast_inj]
      exact key v hv
    rw [hfind]
  · intro page limit v hv
    exact key v (mem_sqlLimitOffset hv)

/-- C7 (witness): the NULL-authored book sits in storage but
`GET /books/:id` on its id responds 404. -/
theorem dangling_fk_invisible_w :
    danglingBook ∈ dbWithDangling.books ∧
    getBookHandler dbWithDangling ((danglingBook.bookid : Nat) : Int) =
      errorResponse 404 "Book not found" :=
  ⟨by decide,
    (dangling_fk_invisible dbWithDangling danglingBook (by decide)
      (by decide) (Or.inl (by decide))).1⟩

/-- C8: whenever `DELETE /books/:id` responds with the 200 success
message, a subsequent `GET /books/:id` on the same id against the
resulting state responds 404 `Book not found`. -/
theorem delete_then_get_404 (db : DB) (id : Int)
    (h : (deleteBooksHandler db id).2 =
      Resp.okMsg "Book deleted successfully") :
    getBookHandler (deleteBooksHandler db id).1 id =
      errorResponse 404 "Book not found" := by
  by_cases hc : db.books.any (fun b => (b.bookid : Int) == id) = true
  · have hdel : (deleteBooksHandler db id).1 =
        { db with
            books := db.books.filter (fun b => !((b.bookid : Int) == id)) } := by
      unfold deleteBooksHandler
      rw [if_pos hc]
    rw [hdel]
    unfold getBookHandler
    have hfind : (listJoin { db with
        books := db.books.filter (fun b => !((b.bookid : Int) == id)) }).find?
        (fun v => (v.bookid : Int) == id) = none := by
      rw [List.find?_eq_none]
      intro v hv
      obtain ⟨b, hb, hjb⟩ := mem_listJoin hv
      have hbf := List.of_mem_filter hb
      rw [Bool.not_eq_true'] at hbf
      simp [joinBook_bookid hjb, hbf]
    rw [hfind]
  · have hdel : (deleteBooksHandler db id).1 = db := by
      unfold deleteBooksHandler
      rw [if_neg hc]
    rw [hdel]
    unfold getBookHandler
    have hall : ∀ b ∈ db.books, ((b.bookid : Int) == id) = false := by
      intro b hb
      by_contra hbb
      exact hc (List.any_eq_true.mpr ⟨b, hb, by simpa using hbb⟩)
    have hfind : (listJoin db).find?
        (fun v => (v.bookid : Int) == id) = none := by
      rw [List.find?_eq_none]
      intro v hv
      obtain ⟨b, hb, hjb⟩ := mem_listJoin hv
      simp [joinBook_bookid hjb, hall b hb]
    rw [hfind]

/-- C8 (witness): deleting seeded book 1 succeeds, and reading id 1
back from the resulting state is a 404. -/
theorem delete_then_get_404_w :
    (deleteBooksHandler seededDB 1).2 =
      Resp.okMsg "Book deleted successfully" ∧
    getBookHandler (deleteBooksHandler seededDB 1).1 1 =
      errorResponse 404 "Book not found" :=
  ⟨by decide, delete_then_get_404 seededDB 1 (by decide)⟩

/-- C9: no operation of the service removes an author or genre row —
POST/PUT/DELETE on books leave both reference tables equal and the two
seeding procedures only ever add to them — and PUT/DELETE touch at most
the single books row whose bookid equals the path id: PUT either leaves
the books list unchanged or rewrites exactly the matching rows in
place, DELETE either leaves it unchanged or removes exactly the
matching rows, POST either leaves it unchanged or appends one fresh
row. -/
theorem book_ops_frame (db : DB) (id : Int) (body : ReqBody) :
    (postBooksHandler db body).1.authors = db.authors ∧
    (postBooksHandler db body).1.genres = db.genres ∧
    ((postBooksHandler db body).1.books = db.books ∨
      (postBooksHandler db body).1.books =
        db.books ++ [Book.ofBody db.nextBookid body]) ∧
    (putBooksHandler db id body).1.authors = db.authors ∧
    (putBooksHandler db id body).1.genres = db.genres ∧
    ((putBooksHandler db id body).1.books = db.books ∨
      (putBooksHandler db id body).1.books = db.books.map (fun b =>
        if (b.bookid : Int) == id then Book.updateWith body b else b)) ∧
    (deleteBooksHandler db id).1.authors = db.authors ∧
    (deleteBooksHandler db id).1.genres = db.genres ∧
    ((deleteBooksHandler db id).1.books = db.books ∨
      (deleteBooksHandler db id).1.books =
        db.books.filter (fun b => !((b.bookid : Int) == id))) ∧
    List.Sublist db.authors (dbSerializeInit db).authors ∧
    List.Sublist db.genres (dbSerializeInit db).genres ∧
    List.Sublist db.authors (dbSerializeInitV3 db).authors ∧
    List.Sublist db.genres (dbSerializeInitV3 db).genres := by
  refine ⟨?_, ?_, ?_, ?_, ?_, ?_, ?_, ?_, ?_, ?_, ?_, ?_, ?_⟩
  · unfold postBooksHandler
    split
    · rfl
    · split <;> rfl
  · unfold postBooksHandler
    split
    · rfl
    · split <;> rfl
  · unfold postBooksHandler
    split
    · exact Or.inl rfl
    · split
      · exact Or.inr rfl
      · exact Or.inl rfl
  · unfold putBooksHandler
    split
    · rfl
    · split
      · split <;> rfl
      · rfl
  · unfold putBooksHandler
    split
    · rfl
    · split
      · split <;> rfl
      · rfl
  · unfold putBooksHandler
    split
    · exact Or.inl rfl
    · split
      · split
        · exact Or.inr rfl
        · exact Or.inl rfl
      · exact Or.inl rfl
  · unfold deleteBooksHandler
    split <;> rfl
  · unfold deleteBooksHandler
    split <;> rfl
  · unfold deleteBooksHandler
    split
    · exact Or.inr rfl
    · exact Or.inl rfl
  · simp only [dbSerializeInit]
    rw [authors_foldl_seedBook, authors_foldl_insertGenre]
    exact authors_sublist_foldl_insertAuthor _ _
  · simp only [dbSerializeInit]
    rw [genres_foldl_seedBook, ← genres_foldl_insertAuthor seedAuthorNames db]
    exact genres_sublist_foldl_insertGenre _ _
  · unfold dbSerializeInitV3
    split
    · exact List.sublist_append_left _ _
    · exact List.Sublist.refl _
  · unfold dbSerializeInitV3
    split
    · exact List.sublist_append_left _ _
    · exact List.Sublist.refl _

end OnlineBackend
